import Mathlib

/-!
Verification model of the zamane_store order pipeline.

The definitions below are a shallow embedding of the Express/Prisma backend:
the checkout route and cancel route in backend/src/routes/orders.ts, the
Stripe webhook route in backend/src/routes/webhooks.ts, the cart merge route,
the order number generator in backend/src/utils/orderNumber.ts, and the
uniqueness constraint on Order.orderNumber from the Prisma migration.
Money amounts (Prisma Decimal, JS number) are modelled as Rat; stock
quantities as Int (Prisma INTEGER, decrements may drive them negative);
cart and line item quantities as Nat (validated positive integers).
-/

namespace ZamaneStore

/-- Discount code types, from the Prisma enum DiscountType. -/
inductive DiscountType
  | PERCENTAGE
  | FIXED_AMOUNT
  | FREE_SHIPPING
  deriving DecidableEq

/-- Order status values, from the Prisma enum OrderStatus. -/
inductive OrderStatus
  | PENDING
  | CONFIRMED
  | PROCESSING
  | SHIPPED
  | DELIVERED
  | CANCELLED
  | REFUNDED
  deriving DecidableEq

/-- Payment status values, from the Prisma enum PaymentStatus. -/
inductive PaymentStatus
  | PENDING
  | PAID
  | FAILED
  | REFUNDED
  | PARTIALLY_REFUNDED
  deriving DecidableEq

/-- The fields of a Product row read by the order pipeline. -/
structure Product where
  id : Nat
  name : String
  sku : String
  price : Rat
  quantity : Int
  allowBackorder : Bool
  deriving DecidableEq

/-- The fields of a ProductVariant row read by the order pipeline. -/
structure ProductVariant where
  id : Nat
  name : String
  sku : Option String
  price : Rat
  quantity : Int
  deriving DecidableEq

/-- A cart item joined with its product and optional variant, as the checkout
route loads it (prisma.cartItem.findMany with include product and variant). -/
structure CartEntry where
  product : Product
  variant : Option ProductVariant
  quantity : Nat
  deriving DecidableEq

/-- Effective unit price: the variant price when a variant is selected, else
the product price (orders.ts, checkout loop). -/
def entryPrice (e : CartEntry) : Rat :=
  match e.variant with
  | some v => v.price
  | none => e.product.price

/-- Available quantity: the variant stock when a variant is selected, else the
product stock (orders.ts, checkout loop). -/
def entryAvailable (e : CartEntry) : Int :=
  match e.variant with
  | some v => v.quantity
  | none => e.product.quantity

/-- Line item display name: product name, with the variant name appended after
a dash when a variant is selected. -/
def entryName (e : CartEntry) : String :=
  e.product.name ++ (match e.variant with | some v => " - " ++ v.name | none => "")

/-- Line item sku snapshot. The JS expression
item.variant?.sku || item.product.sku falls back to the product sku when the
variant is absent, its sku is null, or its sku is the empty string. -/
def entrySku (e : CartEntry) : String :=
  match e.variant with
  | some v =>
    match v.sku with
    | some s => if s = "" then e.product.sku else s
    | none => e.product.sku
  | none => e.product.sku

/-- A DiscountCode row, from the Prisma model. expiresAt is a timestamp. -/
structure DiscountCode where
  id : Nat
  code : String
  type : DiscountType
  value : Rat
  minOrderAmount : Option Rat
  maxUses : Option Nat
  usedCount : Nat
  isActive : Bool
  expiresAt : Option Int
  deriving DecidableEq

/-- An order line item snapshot, from the orderItems array built in the
checkout loop. -/
structure OrderItem where
  productId : Nat
  variantId : Option Nat
  name : String
  sku : String
  price : Rat
  quantity : Nat
  total : Rat
  deriving DecidableEq

/-- The fields of an Order row used by the pipeline. -/
structure Order where
  id : Nat
  orderNumber : String
  userId : Option Nat
  status : OrderStatus
  paymentStatus : PaymentStatus
  subtotal : Rat
  shippingCost : Rat
  discountAmount : Rat
  total : Rat
  discountCodeId : Option Nat
  stripePaymentId : Option String
  items : List OrderItem
  deriving DecidableEq

/-- The structured checkout failures surfaced as 400 responses by the
checkout route, in the taxonomy the spec names. -/
inductive CheckoutError
  | EmptyCartError
  | InsufficientStockError (productId : Nat) (available : Int)
  | InvalidDiscountError
  | DiscountInactiveError
  | DiscountExpiredError
  | DiscountExhaustedError
  | DiscountMinimumNotMetError
  deriving DecidableEq

/-- Decidable equality of results, used to evaluate the model on concrete
inputs. -/
instance {e a : Type} [DecidableEq e] [DecidableEq a] : DecidableEq (Except e a) := fun x y =>
  match x, y with
  | Except.error e1, Except.error e2 =>
    if h : e1 = e2 then Decidable.isTrue (by rw [h])
    else Decidable.isFalse (by intro hc; cases hc; exact h rfl)
  | Except.error _, Except.ok _ => Decidable.isFalse (by intro hc; cases hc)
  | Except.ok _, Except.error _ => Decidable.isFalse (by intro hc; cases hc)
  | Except.ok a1, Except.ok a2 =>
    if h : a1 = a2 then Decidable.isTrue (by rw [h])
    else Decidable.isFalse (by intro hc; cases hc; exact h rfl)

/-- The order item built for one cart entry in the checkout loop. -/
def mkOrderItem (e : CartEntry) : OrderItem :=
  { productId := e.product.id
    variantId := e.variant.map (fun v => v.id)
    name := entryName e
    sku := entrySku e
    price := entryPrice e
    quantity := e.quantity
    total := entryPrice e * e.quantity }

/-- The checkout loop over cart items: checks stock for each entry in order,
failing at the first entry whose requested quantity exceeds the available
quantity on a product that does not allow backorder, and otherwise accumulates
the subtotal and the order item snapshots. -/
def buildItems : List CartEntry → Except CheckoutError (Rat × List OrderItem)
  | [] => Except.ok (0, [])
  | e :: rest =>
    if ¬ e.product.allowBackorder ∧ (e.quantity : Int) > entryAvailable e then
      Except.error (CheckoutError.InsufficientStockError e.product.id (entryAvailable e))
    else
      match buildItems rest with
      | Except.error err => Except.error err
      | Except.ok (s, its) => Except.ok (entryPrice e * e.quantity + s, mkOrderItem e :: its)

/-- The discount amount computation in the checkout route: percentage codes
give subtotal times value over 100, fixed amount codes give the raw value, and
any other type (free shipping) leaves the initial amount 0. -/
def computeDiscountAmount (c : DiscountCode) (subtotal : Rat) : Rat :=
  match c.type with
  | DiscountType.PERCENTAGE => subtotal * (c.value / 100)
  | DiscountType.FIXED_AMOUNT => c.value
  | DiscountType.FREE_SHIPPING => 0

/-- The discount validation chain in the checkout route, in source order:
lookup by upper-cased code, then the active flag, expiry, usage limit and
minimum order amount checks. The usage limit guard mirrors the JS truthiness
test on maxUses: a null or zero maxUses skips the check. The minimum amount
guard mirrors the truthiness test on a Prisma Decimal, which is an object and
hence truthy whenever non-null. -/
def isExpired (c : DiscountCode) (now : Int) : Bool :=
  match c.expiresAt with
  | some t => decide (t < now)
  | none => false

/-- The usage limit guard, mirroring the JS truthiness test on maxUses: a null
or zero maxUses skips the check. -/
def isExhausted (c : DiscountCode) : Bool :=
  match c.maxUses with
  | some m => decide (m ≠ 0) && decide (c.usedCount ≥ m)
  | none => false

/-- The minimum order guard, mirroring the truthiness test on a Prisma
Decimal, which is an object and hence truthy whenever non-null. -/
def belowMinimum (c : DiscountCode) (subtotal : Rat) : Bool :=
  match c.minOrderAmount with
  | some mo => decide (subtotal < mo)
  | none => false

/-- The JS String.prototype.toUpperCase applied to the supplied code before
the unique lookup, modelled over the character list. -/
def jsToUpper (s : String) : String :=
  String.mk (s.data.map Char.toUpper)

def validateDiscount (codes : List DiscountCode) (now : Int) (s : String)
    (subtotal : Rat) : Except CheckoutError DiscountCode :=
  match codes.find? (fun c => c.code == jsToUpper s) with
  | none => Except.error CheckoutError.InvalidDiscountError
  | some c =>
    if ¬ c.isActive then Except.error CheckoutError.DiscountInactiveError
    else if isExpired c now then
      Except.error CheckoutError.DiscountExpiredError
    else if isExhausted c then
      Except.error CheckoutError.DiscountExhaustedError
    else if belowMinimum c subtotal then
      Except.error CheckoutError.DiscountMinimumNotMetError
    else Except.ok c

/-- Discount resolution for the whole request: no code supplied means amount 0
and no discount reference; a supplied code is validated and its amount
computed. -/
def resolveDiscount (codes : List DiscountCode) (now : Int)
    (discountCode : Option String) (subtotal : Rat) :
    Except CheckoutError (Rat × Option Nat) :=
  match discountCode with
  | none => Except.ok (0, none)
  | some s =>
    match validateDiscount codes now s subtotal with
    | Except.error e => Except.error e
    | Except.ok c => Except.ok (computeDiscountAmount c subtotal, some c.id)

/-- The flat rate shipping policy in the checkout route: free over 200 ILS,
else 25 ILS. -/
def flatShipping (subtotal : Rat) : Rat :=
  if subtotal > 200 then 0 else 25

/-- The checkout route, orders.ts POST /checkout: empty cart check, stock
check and totals loop, discount validation, shipping and total computation,
and the order record persisted in PENDING state for both status fields.
The external inputs are the discount table, the current time, the joined cart,
the optional authenticated user, the generated order number and the fresh row
id. The Stripe session creation that follows order creation is external and
not modelled here. -/
def checkout (codes : List DiscountCode) (now : Int) (cart : List CartEntry)
    (userId : Option Nat) (discountCode : Option String) (oid : Nat)
    (orderNumber : String) : Except CheckoutError Order :=
  if cart.isEmpty then Except.error CheckoutError.EmptyCartError
  else
    match buildItems cart with
    | Except.error e => Except.error e
    | Except.ok (subtotal, items) =>
      match resolveDiscount codes now discountCode subtotal with
      | Except.error e => Except.error e
      | Except.ok (discountAmount, discountCodeId) =>
        let shippingCost := flatShipping subtotal
        Except.ok
          { id := oid
            orderNumber := orderNumber
            userId := userId
            status := OrderStatus.PENDING
            paymentStatus := PaymentStatus.PENDING
            subtotal := subtotal
            shippingCost := shippingCost
            discountAmount := discountAmount
            total := subtotal - discountAmount + shippingCost
            discountCodeId := discountCodeId
            stripePaymentId := none
            items := items }

/-- A cart item row, from the Prisma CartItem model: exactly one of userId and
sessionId identifies the owner in practice. -/
structure CartItem where
  id : Nat
  userId : Option Nat
  sessionId : Option String
  productId : Nat
  variantId : Option Nat
  quantity : Nat
  deriving DecidableEq

/-- The database state touched by the order pipeline. -/
structure StoreState where
  orders : List Order
  products : List Product
  variants : List ProductVariant
  discountCodes : List DiscountCode
  cartItems : List CartItem
  deriving DecidableEq

/-- A row update keyed by id, the model of a prisma update call. -/
def updateById (l : List α) (getId : α → Nat) (i : Nat) (f : α → α) : List α :=
  l.map (fun x => if getId x = i then f x else x)

/-- The stock decrement for one order line item in the webhook handler:
variant stock when the item references a variant, else product stock. -/
def applyStockDecrement (st : StoreState) (it : OrderItem) : StoreState :=
  match it.variantId with
  | some vid =>
    let l := updateById st.variants (fun v => v.id) vid
      (fun v => { v with quantity := v.quantity - it.quantity })
    { st with variants := l }
  | none =>
    let l := updateById st.products (fun p => p.id) it.productId
      (fun p => { p with quantity := p.quantity - it.quantity })
    { st with products := l }

/-- The stock increment for one order line item in the cancel route. -/
def applyStockIncrement (st : StoreState) (it : OrderItem) : StoreState :=
  match it.variantId with
  | some vid =>
    let l := updateById st.variants (fun v => v.id) vid
      (fun v => { v with quantity := v.quantity + it.quantity })
    { st with variants := l }
  | none =>
    let l := updateById st.products (fun p => p.id) it.productId
      (fun p => { p with quantity := p.quantity + it.quantity })
    { st with products := l }

/-- The status update the webhook handler applies to the order row. -/
def confirmOrder (o : Order) : Order :=
  { o with status := OrderStatus.CONFIRMED, paymentStatus := PaymentStatus.PAID }

/-- handleCheckoutComplete in webhooks.ts: no order id in the event metadata
is a logged no-op; an unknown order id makes the prisma update throw, which
the surrounding try block turns into a logged no-op; otherwise the order is
set CONFIRMED and PAID unconditionally, every line item decrements its variant
or product stock, a referenced discount code has its usage counter
incremented, and an authenticated owner has all cart rows deleted. There is no
guard on the current payment status of the order. -/
def handleCheckoutComplete (st : StoreState) (metadataOrderId : Option Nat) :
    StoreState :=
  match metadataOrderId with
  | none => st
  | some oid =>
    match st.orders.find? (fun o => o.id == oid) with
    | none => st
    | some order =>
      let st1 := { st with orders := updateById st.orders (fun o => o.id) oid confirmOrder }
      let st2 := order.items.foldl applyStockDecrement st1
      let st3 :=
        match order.discountCodeId with
        | some did =>
          let l := updateById st2.discountCodes (fun c => c.id) did
            (fun c => { c with usedCount := c.usedCount + 1 })
          { st2 with discountCodes := l }
        | none => st2
      match order.userId with
      | some uid => { st3 with cartItems := st3.cartItems.filter (fun ci => ci.userId ≠ some uid) }
      | none => st3

/-- The Stripe event kinds the webhook route distinguishes. -/
inductive StripeEvent
  | checkoutSessionCompleted (metadataOrderId : Option Nat)
  | paymentIntentSucceeded
  | paymentIntentFailed
  | unrecognized
  deriving DecidableEq

/-- The webhook route, webhooks.ts POST /stripe. Signature verification is
performed by the external Stripe library call constructEvent against the
shared webhook secret; its outcome is the Option argument, none standing for
the thrown signature verification error. On none the route answers 400 with
no state change; on a verified event it dispatches and answers 200. The first
component of the result is the HTTP status. -/
def webhookStripe (st : StoreState) (verifiedEvent : Option StripeEvent) :
    Nat × StoreState :=
  match verifiedEvent with
  | none => (400, st)
  | some (StripeEvent.checkoutSessionCompleted oid) => (200, handleCheckoutComplete st oid)
  | some _ => (200, st)

/-- Outcomes of the customer cancel route. -/
inductive CancelOutcome
  | notFound
  | accessDenied
  | notCancellable
  | cancelled
  deriving DecidableEq

/-- The customer cancel route, orders.ts POST /:id/cancel. getPaymentIntent
abstracts the external Stripe session retrieval: the payment intent attached
to a stored session id, if any. The middle component of the result counts the
refund calls issued through the gateway. The refund guard mirrors the JS
truthiness test on stripePaymentId, under which a null or empty string skips
the refund. After the status update the route restores inventory for every
line item unconditionally, whatever the payment status was. -/
def cancelOrder (st : StoreState) (getPaymentIntent : String → Option String)
    (oid : Nat) (reqUserId : Nat) : CancelOutcome × Nat × StoreState :=
  match st.orders.find? (fun o => o.id == oid) with
  | none => (CancelOutcome.notFound, 0, st)
  | some o =>
    if o.userId ≠ some reqUserId then (CancelOutcome.accessDenied, 0, st)
    else if ¬ (o.status = OrderStatus.PENDING ∨ o.status = OrderStatus.CONFIRMED) then
      (CancelOutcome.notCancellable, 0, st)
    else
      let refundCalls :=
        if o.paymentStatus = PaymentStatus.PAID then
          match o.stripePaymentId with
          | some sid =>
            if sid = "" then 0
            else match getPaymentIntent sid with
                 | some _ => 1
                 | none => 0
          | none => 0
        else 0
      let l := updateById st.orders (fun o2 => o2.id) oid
        (fun o2 =>
          { o2 with
              status := OrderStatus.CANCELLED
              paymentStatus :=
                if o2.paymentStatus = PaymentStatus.PAID then PaymentStatus.REFUNDED
                else o2.paymentStatus })
      let st1 := { st with orders := l }
      let st2 := o.items.foldl applyStockIncrement st1
      (CancelOutcome.cancelled, refundCalls, st2)

/-- Base 36 digit characters, 0 to 9 then a to z, as produced by the JS
Number.toString(36). -/
def base36Char (d : Nat) : Char :=
  if d < 10 then Char.ofNat (48 + d) else Char.ofNat (97 + (d - 10))

/-- Decimal digit list of n, most significant first, empty for 0. -/
def decDigits (n : Nat) : List Nat :=
  (Nat.digits 10 n).reverse

/-- Zero padding to width w, as the date fields of Date.toISOString are
padded. -/
def padDigits (w n : Nat) : List Nat :=
  List.replicate (w - (decDigits n).length) 0 ++ decDigits n

/-- The date part of Date.toISOString with the dashes removed: YYYYMMDD. -/
def isoDateStr (y m d : Nat) : String :=
  String.mk ((padDigits 4 y ++ padDigits 2 m ++ padDigits 2 d).map Nat.digitChar)

/-- The order number generator, utils/orderNumber.ts: the constant prefix ZPS,
a dash, the toISOString date with dashes removed, a dash, and the first four
base 36 fractional digits of the Math.random value, upper cased. randomDigits
is the digit list of the JS base 36 rendering of the random value after the
leading zero and dot, so substring(2, 6) is its first four entries, and is
shorter when the rendering terminates early. -/
def generateOrderNumber (y m d : Nat) (randomDigits : List Nat) : String :=
  "ZPS-" ++ isoDateStr y m d ++ "-" ++
    String.mk ((randomDigits.take 4).map (fun k => (base36Char k).toUpper))

/-- Database errors surfaced by the model of order insertion. -/
inductive DbError
  | uniqueViolation
  deriving DecidableEq

/-- Insertion of an order row against the unique index Order_orderNumber_key
from the Prisma migration: a colliding order number is rejected as a
constraint violation and the table is left unchanged, never overwritten. -/
def insertOrder (db : List Order) (o : Order) : Except DbError (List Order) :=
  if db.any (fun o2 => o2.orderNumber == o.orderNumber) then
    Except.error DbError.uniqueViolation
  else Except.ok (o :: db)

/-- A cart row update keyed by id. -/
def updateCartById (l : List CartItem) (i : Nat) (f : CartItem → CartItem) :
    List CartItem :=
  l.map (fun it => if it.id = i then f it else it)

/-- A cart row deletion keyed by id. -/
def removeCartById (l : List CartItem) (i : Nat) : List CartItem :=
  l.filter (fun it => it.id ≠ i)

/-- One iteration of the merge loop in the cart merge route: look up an
existing cart row of the user for the same product and variant; when present,
add the guest quantity onto it and delete the guest row, else reassign the
guest row to the user and clear its session id. -/
def mergeStep (uid : Nat) (items : List CartItem) (gi : CartItem) :
    List CartItem :=
  match items.find? (fun it =>
      decide (it.userId = some uid ∧ it.productId = gi.productId ∧
        it.variantId = gi.variantId)) with
  | some ex =>
    removeCartById
      (updateCartById items ex.id (fun it => { it with quantity := it.quantity + gi.quantity }))
      gi.id
  | none =>
    updateCartById items gi.id (fun it => { it with userId := some uid, sessionId := none })

/-- The cart merge route, POST /cart/merge: fold the merge iteration over the
snapshot of guest rows for the supplied session id. -/
def mergeCart (items : List CartItem) (uid : Nat) (sid : String) :
    List CartItem :=
  (items.filter (fun it => decide (it.sessionId = some sid))).foldl (mergeStep uid) items

/-- Total cart quantity the user uid holds for one product and variant pair. -/
def userQty (items : List CartItem) (uid p : Nat) (v : Option Nat) : Nat :=
  (items.map (fun it =>
    if it.userId = some uid ∧ it.productId = p ∧ it.variantId = v then it.quantity
    else 0)).sum

/-- Total cart quantity the guest session sid holds for one product and
variant pair. -/
def guestQty (items : List CartItem) (sid : String) (p : Nat) (v : Option Nat) : Nat :=
  (items.map (fun it =>
    if it.sessionId = some sid ∧ it.productId = p ∧ it.variantId = v then it.quantity
    else 0)).sum

/-- Stock on hand of a product row in a state. -/
def productQty (st : StoreState) (pid : Nat) : Option Int :=
  (st.products.find? (fun p => p.id == pid)).map (fun p => p.quantity)

/-- Stock on hand of a variant row in a state. -/
def variantQty (st : StoreState) (vid : Nat) : Option Int :=
  (st.variants.find? (fun v => v.id == vid)).map (fun v => v.quantity)

/-- Usage counter of a discount code row in a state. -/
def discountUsed (st : StoreState) (did : Nat) : Option Nat :=
  (st.discountCodes.find? (fun c => c.id == did)).map (fun c => c.usedCount)

/-! Helper lemmas about the checkout pipeline. -/

/-- A successful checkout run decomposes into a successful item loop, a
successful discount resolution, and the order record built from them. -/
theorem checkout_ok_elim (codes : List DiscountCode) (now : Int)
    (cart : List CartEntry) (userId : Option Nat) (discountCode : Option String)
    (oid : Nat) (onum : String) (o : Order)
    (h : checkout codes now cart userId discountCode oid onum = Except.ok o) :
    ∃ subtotal items discountAmount discountCodeId,
      buildItems cart = Except.ok (subtotal, items) ∧
      resolveDiscount codes now discountCode subtotal =
        Except.ok (discountAmount, discountCodeId) ∧
      o = { id := oid
            orderNumber := onum
            userId := userId
            status := OrderStatus.PENDING
            paymentStatus := PaymentStatus.PENDING
            subtotal := subtotal
            shippingCost := flatShipping subtotal
            discountAmount := discountAmount
            total := subtotal - discountAmount + flatShipping subtotal
            discountCodeId := discountCodeId
            stripePaymentId := none
            items := items } := by
  unfold checkout at h
  split at h
  · cases h
  · split at h
    · cases h
    · rename_i subtotal items heq
      split at h
      · cases h
      · rename_i discountAmount discountCodeId heq2
        exact ⟨subtotal, items, discountAmount, discountCodeId, heq, heq2,
          by cases h; rfl⟩

/-- The item loop on success returns the subtotal as the sum of effective
price times quantity over the cart, and the snapshots of each entry. -/
theorem buildItems_ok_spec (l : List CartEntry) (s : Rat) (its : List OrderItem)
    (h : buildItems l = Except.ok (s, its)) :
    s = (l.map (fun e => entryPrice e * (e.quantity : Rat))).sum ∧
    its = l.map mkOrderItem := by
  induction l generalizing s its with
  | nil =>
    unfold buildItems at h
    cases h
    simp
  | cons e rest ih =>
    unfold buildItems at h
    split at h
    · cases h
    · split at h
      · cases h
      · rename_i s0 its0 heq
        cases h
        obtain ⟨h1, h2⟩ := ih s0 its0 heq
        subst h1
        subst h2
        simp [mul_comm]

/-! Concrete rows used by witnesses and counterexamples. -/

/-- A plain product with stock 10, price 50, no backorder. -/
def prodA : Product :=
  { id := 1, name := "A", sku := "SKU-A", price := 50, quantity := 10,
    allowBackorder := false }

/-- A one line cart: two units of prodA, subtotal 100. -/
def cartA : List CartEntry :=
  [{ product := prodA, variant := none, quantity := 2 }]

/-- A cart requesting five units of prodA with only three in stock. -/
def prodLow : Product :=
  { id := 2, name := "B", sku := "SKU-B", price := 30, quantity := 3,
    allowBackorder := false }

def cartLow : List CartEntry :=
  [{ product := prodLow, variant := none, quantity := 5 }]

/-! ### C7 : empty cart checkout -/

/-- C7: for every identity, checkout over an empty cart fails with
EmptyCartError and creates no order. -/
theorem checkout_empty_cart (codes : List DiscountCode) (now : Int)
    (userId : Option Nat) (discountCode : Option String) (oid : Nat)
    (onum : String) :
    checkout codes now [] userId discountCode oid onum =
      Except.error CheckoutError.EmptyCartError := rfl

/-! ### C5 : webhook signature failure -/

/-- C5: a webhook delivery whose signature does not verify is answered with
status 400, a client error, and mutates no order, product, variant, discount
or cart row. -/
theorem webhook_invalid_signature_no_mutation (st : StoreState) :
    (webhookStripe st none).1 = 400 ∧
    400 ≤ (webhookStripe st none).1 ∧ (webhookStripe st none).1 < 500 ∧
    (webhookStripe st none).2.orders = st.orders ∧
    (webhookStripe st none).2.products = st.products ∧
    (webhookStripe st none).2.variants = st.variants ∧
    (webhookStripe st none).2.discountCodes = st.discountCodes ∧
    (webhookStripe st none).2.cartItems = st.cartItems := by
  simp [webhookStripe]

/-! ### C3 : totals breakdown -/

/-- C3: every persisted order satisfies total equal to subtotal minus discount
plus shipping, the subtotal is the sum of effective unit price times quantity
over the cart, every line item total is its price times quantity, and the
order total equals the sum of line item totals plus shipping minus discount. -/
theorem checkout_totals_breakdown (codes : List DiscountCode) (now : Int)
    (cart : List CartEntry) (userId : Option Nat) (discountCode : Option String)
    (oid : Nat) (onum : String) (o : Order)
    (h : checkout codes now cart userId discountCode oid onum = Except.ok o) :
    o.total = o.subtotal - o.discountAmount + o.shippingCost ∧
    o.subtotal = (cart.map (fun e => entryPrice e * (e.quantity : Rat))).sum ∧
    (∀ it ∈ o.items, it.total = it.price * (it.quantity : Rat)) ∧
    o.total = (o.items.map (fun it => it.total)).sum + o.shippingCost - o.discountAmount := by
  obtain ⟨subtotal, items, da, dcid, hb, hd, rfl⟩ :=
    checkout_ok_elim codes now cart userId discountCode oid onum o h
  obtain ⟨hs, hi⟩ := buildItems_ok_spec cart subtotal items hb
  refine ⟨rfl, hs, ?_, ?_⟩
  · intro it hit
    rw [hi] at hit
    obtain ⟨e, _, rfl⟩ := List.mem_map.mp hit
    simp [mkOrderItem]
  · have htot : (items.map (fun it => it.total)).sum = subtotal := by
      rw [hi, hs, List.map_map]
      rfl
    simp only [htot]
    ring

/-- The line item snapshot of cartA. -/
def itemA : OrderItem :=
  { productId := 1
    variantId := none
    name := "A"
    sku := "SKU-A"
    price := 50
    quantity := 2
    total := 100 }

/-- The order cartA produces: subtotal 100, shipping 25, total 125. -/
def orderA : Order :=
  { id := 1
    orderNumber := "N"
    userId := none
    status := OrderStatus.PENDING
    paymentStatus := PaymentStatus.PENDING
    subtotal := 100
    shippingCost := 25
    discountAmount := 0
    total := 125
    discountCodeId := none
    stripePaymentId := none
    items := [itemA] }

/-- C3 witness: the two unit cart at price 50 yields subtotal 100, shipping
25, total 125, and the breakdown identity holds on it. -/
theorem checkout_totals_breakdown_witness :
    checkout [] 0 cartA none none 1 "N" = Except.ok orderA ∧
    orderA.total = orderA.subtotal - orderA.discountAmount + orderA.shippingCost := by
  have hW : checkout [] 0 cartA none none 1 "N" = Except.ok orderA := by
    simp only [checkout, cartA, prodA, buildItems, mkOrderItem, entryPrice, entryName,
      entrySku, entryAvailable, resolveDiscount, flatShipping, orderA, itemA]
    norm_num
  exact ⟨hW, (checkout_totals_breakdown [] 0 cartA none none 1 "N" orderA hW).1⟩

/-! ### C6 : insufficient stock -/

/-- The item loop fails, at some offending entry, with the stock error
carrying that entry product id and available quantity. -/
theorem buildItems_insufficient (l : List CartEntry)
    (h : ∃ e ∈ l, ¬ e.product.allowBackorder ∧ (e.quantity : Int) > entryAvailable e) :
    ∃ e ∈ l, ¬ e.product.allowBackorder ∧ (e.quantity : Int) > entryAvailable e ∧
      buildItems l =
        Except.error (CheckoutError.InsufficientStockError e.product.id (entryAvailable e)) := by
  induction l with
  | nil => simp at h
  | cons a rest ih =>
    by_cases hc : ¬ a.product.allowBackorder ∧ (a.quantity : Int) > entryAvailable a
    · refine ⟨a, List.mem_cons_self a rest, hc.1, hc.2, ?_⟩
      unfold buildItems
      rw [if_pos hc]
    · obtain ⟨e, he, hprop⟩ := h
      rcases List.mem_cons.mp he with rfl | he2
      · exact absurd hprop hc
      · obtain ⟨e2, he3, h1, h2, hb⟩ := ih ⟨e, he2, hprop⟩
        refine ⟨e2, List.mem_cons_of_mem a he3, h1, h2, ?_⟩
        unfold buildItems
        rw [if_neg hc, hb]

/-- C6: whenever some cart entry requests more than the available quantity on
a product that does not allow backorder, the whole checkout fails with the
stock error carrying an offending product id and its available quantity, and
no order is created. -/
theorem checkout_insufficient_stock (codes : List DiscountCode) (now : Int)
    (cart : List CartEntry) (userId : Option Nat) (discountCode : Option String)
    (oid : Nat) (onum : String)
    (h : ∃ e ∈ cart, ¬ e.product.allowBackorder ∧ (e.quantity : Int) > entryAvailable e) :
    ∃ e ∈ cart, ¬ e.product.allowBackorder ∧ (e.quantity : Int) > entryAvailable e ∧
      checkout codes now cart userId discountCode oid onum =
        Except.error (CheckoutError.InsufficientStockError e.product.id (entryAvailable e)) := by
  obtain ⟨e, he, h1, h2, hb⟩ := buildItems_insufficient cart h
  have hne : ¬ cart.isEmpty = true := by
    cases cart with
    | nil => simp at he
    | cons a t => simp
  refine ⟨e, he, h1, h2, ?_⟩
  unfold checkout
  rw [if_neg hne, hb]

/-- C6 witness: requesting five of a product with three in stock fails with
the stock error naming product 2 and available 3. -/
theorem checkout_insufficient_stock_witness :
    (∃ e ∈ cartLow, ¬ e.product.allowBackorder ∧ (e.quantity : Int) > entryAvailable e) ∧
    checkout [] 0 cartLow none none 1 "N" =
      Except.error (CheckoutError.InsufficientStockError 2 3) := by
  have h := checkout_insufficient_stock [] 0 cartLow none none 1 "N"
    (by decide)
  refine ⟨by decide, ?_⟩
  obtain ⟨e, he, h1, h2, hb⟩ := h
  have : e = { product := prodLow, variant := none, quantity := 5 } := by
    simpa [cartLow] using he
  subst this
  simpa [prodLow, entryAvailable] using hb


/-! ### C4 : discount amount by type -/

/-- A free shipping discount code, always valid. -/
def codeFS : DiscountCode :=
  { id := 7
    code := "SHIP"
    type := DiscountType.FREE_SHIPPING
    value := 0
    minOrderAmount := none
    maxUses := none
    usedCount := 0
    isActive := true
    expiresAt := none }

/-- A ten percent discount code, always valid. -/
def codeP10 : DiscountCode :=
  { codeFS with id := 11, code := "P10", type := DiscountType.PERCENTAGE, value := 10 }

/-- A zero percent discount code, always valid. -/
def codeP0 : DiscountCode :=
  { codeP10 with id := 12, code := "P0", value := 0 }

/-- A one hundred percent discount code, always valid. -/
def codeP100 : DiscountCode :=
  { codeP10 with id := 13, code := "P100", value := 100 }

/-- A product priced 100. -/
def prodB : Product :=
  { id := 3, name := "C", sku := "SKU-C", price := 100, quantity := 10,
    allowBackorder := false }

/-- A two unit cart over prodB: subtotal 200. -/
def cartB : List CartEntry :=
  [{ product := prodB, variant := none, quantity := 2 }]

/-- C4 counterexample: checking out the subtotal 100 cart with a valid free
shipping code yields discount amount 0 but shipping cost 25, the flat rate,
not the 0 the claim states the order is forced to. -/
theorem checkout_free_shipping_keeps_flat_rate :
    (checkout [codeFS] 0 cartA none (some "ship") 1 "N").map
        (fun o => (o.discountAmount, o.shippingCost)) =
      Except.ok ((0 : Rat), (25 : Rat)) ∧ (25 : Rat) ≠ 0 := by
  constructor
  · have hupper : jsToUpper "ship" = "SHIP" := by decide
    simp only [checkout, cartA, prodA, buildItems, mkOrderItem, entryPrice, entryName,
      entrySku, entryAvailable, resolveDiscount, validateDiscount, computeDiscountAmount,
      isExpired, isExhausted, belowMinimum, flatShipping, codeFS, hupper, List.find?,
      Except.map]
    norm_num
  · norm_num

/-- C4 amended: for a checkout that succeeds with a discount code, the
discount amount is computed by type: percentage gives subtotal times value
over 100, fixed amount gives the raw value, free shipping gives amount 0;
the shipping cost always follows the flat rate policy on the subtotal and is
not forced to 0 by a free shipping code. Validation never inspects the value,
so percentage values 0 and 100 do not error. -/
theorem checkout_discount_amount_by_type (codes : List DiscountCode) (now : Int)
    (cart : List CartEntry) (userId : Option Nat) (s : String) (oid : Nat)
    (onum : String) (o : Order) (c : DiscountCode)
    (h : checkout codes now cart userId (some s) oid onum = Except.ok o)
    (hc : codes.find? (fun c2 => c2.code == jsToUpper s) = some c) :
    (c.type = DiscountType.PERCENTAGE → o.discountAmount = o.subtotal * (c.value / 100)) ∧
    (c.type = DiscountType.FIXED_AMOUNT → o.discountAmount = c.value) ∧
    (c.type = DiscountType.FREE_SHIPPING → o.discountAmount = 0) ∧
    o.shippingCost = flatShipping o.subtotal := by
  obtain ⟨subtotal, items, da, dcid, hb, hd, rfl⟩ :=
    checkout_ok_elim codes now cart userId (some s) oid onum o h
  have hd2 : (match validateDiscount codes now s subtotal with
      | Except.error e => Except.error e
      | Except.ok c2 =>
        Except.ok (computeDiscountAmount c2 subtotal, some c2.id)) =
      Except.ok (da, dcid) := hd
  cases hv : validateDiscount codes now s subtotal with
  | error e => rw [hv] at hd2; cases hd2
  | ok c2 =>
    rw [hv] at hd2
    cases hd2
    unfold validateDiscount at hv
    rw [hc] at hv
    split at hv
    · cases hv
    · split at hv
      · cases hv
      · split at hv
        · cases hv
        · split at hv
          · cases hv
          · split at hv
            · cases hv
            · cases hv
              rename_i hsome hA hB hC hD
              injection hsome with hce
              subst hce
              refine ⟨?_, ?_, ?_, rfl⟩ <;> intro ht <;>
                simp [computeDiscountAmount, ht]

/-- The line item snapshot of cartB. -/
def itemB : OrderItem :=
  { productId := 3
    variantId := none
    name := "C"
    sku := "SKU-C"
    price := 100
    quantity := 2
    total := 200 }

/-- The order cartB with the ten percent code produces: subtotal 200,
shipping 25, discount 20, total 205. -/
def orderB : Order :=
  { id := 2
    orderNumber := "N2"
    userId := none
    status := OrderStatus.PENDING
    paymentStatus := PaymentStatus.PENDING
    subtotal := 200
    shippingCost := 25
    discountAmount := 20
    total := 205
    discountCodeId := some 11
    stripePaymentId := none
    items := [itemB] }

/-- C4 witness: a ten percent code on the subtotal 200 cart gives discount
amount 20 with shipping at the flat rate; zero and one hundred percent codes
check out without error on the same cart. -/
theorem checkout_discount_amount_by_type_witness :
    (∃ o, checkout [codeP10] 0 cartB none (some "p10") 2 "N2" = Except.ok o ∧
      o.discountAmount = o.subtotal * ((10 : Rat) / 100) ∧
      o.discountAmount = 20 ∧ o.subtotal = 200) ∧
    (checkout [codeP0] 0 cartB none (some "p0") 3 "N3").isOk = true ∧
    (checkout [codeP100] 0 cartB none (some "p100") 4 "N4").isOk = true := by
  have hupper : jsToUpper "p10" = "P10" := by decide
  have hW : checkout [codeP10] 0 cartB none (some "p10") 2 "N2" = Except.ok orderB := by
    simp only [checkout, cartB, prodB, buildItems, mkOrderItem, entryPrice, entryName,
      entrySku, entryAvailable, resolveDiscount, validateDiscount, computeDiscountAmount,
      isExpired, isExhausted, belowMinimum, flatShipping, codeP10, codeFS, hupper,
      List.find?, orderB, itemB]
    norm_num
  refine ⟨⟨orderB, hW, ?_, ?_, ?_⟩, ?_, ?_⟩
  · have h := (checkout_discount_amount_by_type [codeP10] 0 cartB none "p10" 2 "N2"
      orderB codeP10 hW (by simp [List.find?, hupper, codeP10, codeFS])).1 rfl
    simpa [codeP10, codeFS] using h
  · norm_num [orderB]
  · norm_num [orderB]
  · have hu : jsToUpper "p0" = "P0" := by decide
    simp only [checkout, cartB, prodB, buildItems, mkOrderItem, entryPrice, entryName,
      entrySku, entryAvailable, resolveDiscount, validateDiscount, computeDiscountAmount,
      isExpired, isExhausted, belowMinimum, flatShipping, codeP0, codeP10, codeFS, hu,
      List.find?]
    norm_num [Except.isOk, Except.toBool]
  · have hu : jsToUpper "p100" = "P100" := by decide
    simp only [checkout, cartB, prodB, buildItems, mkOrderItem, entryPrice, entryName,
      entrySku, entryAvailable, resolveDiscount, validateDiscount, computeDiscountAmount,
      isExpired, isExhausted, belowMinimum, flatShipping, codeP100, codeP10, codeFS, hu,
      List.find?]
    norm_num [Except.isOk, Except.toBool]



/-! ### C8 : discount validation errors -/

/-- Checkout surfaces the validation error of the supplied discount code once
the cart loop has succeeded. -/
theorem checkout_error_of_validate (codes : List DiscountCode) (now : Int)
    (cart : List CartEntry) (userId : Option Nat) (s : String) (oid : Nat)
    (onum : String) (subtotal : Rat) (items : List OrderItem)
    (err : CheckoutError)
    (hcart : cart ≠ [])
    (hb : buildItems cart = Except.ok (subtotal, items))
    (hv : validateDiscount codes now s subtotal = Except.error err) :
    checkout codes now cart userId (some s) oid onum = Except.error err := by
  have hne : ¬ cart.isEmpty = true := by
    cases cart with
    | nil => exact absurd rfl hcart
    | cons a t => simp
  have hres : resolveDiscount codes now (some s) subtotal = Except.error err := by
    show (match validateDiscount codes now s subtotal with
          | Except.error e => Except.error e
          | Except.ok c =>
            Except.ok (computeDiscountAmount c subtotal, some c.id)) =
        Except.error err
    rw [hv]
  unfold checkout
  rw [if_neg hne]
  split
  · rename_i e heq
    rw [hb] at heq
    cases heq
  · rename_i s2 its2 heq
    rw [hb] at heq
    cases heq
    rw [hres]

/-- C8 amended: over a non-empty cart whose item loop yields subtotal S, a
supplied discount code fails checkout with InvalidDiscountError when no code
matches the upper-cased string, DiscountInactiveError when the match is not
active, DiscountExpiredError when it is past expiry, DiscountExhaustedError
when max uses is set to a NON-ZERO value the usage counter has reached (a max
uses of zero is skipped by the JS truthiness guard), and
DiscountMinimumNotMetError when S is below the minimum order amount even if
the code is otherwise valid; in every case no order is created. -/
theorem checkout_discount_validation_errors (codes : List DiscountCode)
    (now : Int) (cart : List CartEntry) (userId : Option Nat) (s : String)
    (oid : Nat) (onum : String) (subtotal : Rat) (items : List OrderItem)
    (hcart : cart ≠ [])
    (hb : buildItems cart = Except.ok (subtotal, items)) :
    (codes.find? (fun c => c.code == jsToUpper s) = none →
      checkout codes now cart userId (some s) oid onum =
        Except.error CheckoutError.InvalidDiscountError) ∧
    (∀ c, codes.find? (fun c2 => c2.code == jsToUpper s) = some c →
      (c.isActive = false →
        checkout codes now cart userId (some s) oid onum =
          Except.error CheckoutError.DiscountInactiveError) ∧
      (c.isActive = true → isExpired c now = true →
        checkout codes now cart userId (some s) oid onum =
          Except.error CheckoutError.DiscountExpiredError) ∧
      (c.isActive = true → isExpired c now = false →
        ∀ m, c.maxUses = some m → m ≠ 0 → m ≤ c.usedCount →
          checkout codes now cart userId (some s) oid onum =
            Except.error CheckoutError.DiscountExhaustedError) ∧
      (c.isActive = true → isExpired c now = false → isExhausted c = false →
        ∀ mo, c.minOrderAmount = some mo → subtotal < mo →
          checkout codes now cart userId (some s) oid onum =
            Except.error CheckoutError.DiscountMinimumNotMetError)) := by
  constructor
  · intro hfind
    refine checkout_error_of_validate codes now cart userId s oid onum subtotal items
      _ hcart hb ?_
    simp [validateDiscount, hfind]
  · intro c hc
    refine ⟨?_, ?_, ?_, ?_⟩
    · intro hA
      refine checkout_error_of_validate codes now cart userId s oid onum subtotal items
        _ hcart hb ?_
      simp [validateDiscount, hc, hA]
    · intro hA hE
      refine checkout_error_of_validate codes now cart userId s oid onum subtotal items
        _ hcart hb ?_
      simp [validateDiscount, hc, hA, hE]
    · intro hA hE m hm hm0 hle
      have hx : isExhausted c = true := by
        simp [isExhausted, hm, hm0, hle]
      refine checkout_error_of_validate codes now cart userId s oid onum subtotal items
        _ hcart hb ?_
      simp [validateDiscount, hc, hA, hE, hx]
    · intro hA hE hX mo hmo hlt
      have hbm : belowMinimum c subtotal = true := by
        simp [belowMinimum, hmo, hlt]
      refine checkout_error_of_validate codes now cart userId s oid onum subtotal items
        _ hcart hb ?_
      simp [validateDiscount, hc, hA, hE, hX, hbm]

/-- A fixed amount code whose max uses is zero and counter zero. -/
def codeLim : DiscountCode :=
  { codeFS with
      id := 8
      code := "LIM"
      type := DiscountType.FIXED_AMOUNT
      value := 5
      maxUses := some 0 }

/-- C8 counterexample: code LIM has max uses 0 and usage counter 0, so the
counter is at least max uses, yet checkout succeeds rather than failing with
DiscountExhaustedError: the JS truthiness guard treats max uses 0 as no
limit. -/
theorem checkout_exhausted_skipped_for_zero_max_uses :
    (codeLim.maxUses = some 0 ∧ codeLim.usedCount ≥ 0) ∧
    (checkout [codeLim] 0 cartA none (some "lim") 5 "N5").isOk = true := by
  refine ⟨⟨rfl, le_refl 0⟩, ?_⟩
  have hu : jsToUpper "lim" = "LIM" := by decide
  simp only [checkout, cartA, prodA, buildItems, mkOrderItem, entryPrice, entryName,
    entrySku, entryAvailable, resolveDiscount, validateDiscount, computeDiscountAmount,
    isExpired, isExhausted, belowMinimum, flatShipping, codeLim, codeFS, hu, List.find?]
  norm_num [Except.isOk, Except.toBool]

/-- An otherwise valid code with max uses one, already used once. -/
def codeEx : DiscountCode :=
  { codeFS with
      id := 9
      code := "EX"
      type := DiscountType.FIXED_AMOUNT
      value := 5
      maxUses := some 1
      usedCount := 1 }

/-- An otherwise valid code requiring a 500 ILS minimum order. -/
def codeMin : DiscountCode :=
  { codeFS with
      id := 10
      code := "MIN"
      type := DiscountType.FIXED_AMOUNT
      value := 5
      minOrderAmount := some 500 }

/-- C8 witness: the exhausted code EX and the high minimum code MIN on the
subtotal 100 cart produce the respective errors. -/
theorem checkout_discount_validation_errors_witness :
    (cartA ≠ [] ∧ buildItems cartA = Except.ok ((100 : Rat), [itemA])) ∧
    checkout [codeEx] 0 cartA none (some "ex") 6 "N6" =
      Except.error CheckoutError.DiscountExhaustedError ∧
    checkout [codeMin] 0 cartA none (some "min") 7 "N7" =
      Except.error CheckoutError.DiscountMinimumNotMetError := by
  have hbA : buildItems cartA = Except.ok ((100 : Rat), [itemA]) := by
    simp only [buildItems, cartA, prodA, mkOrderItem, entryPrice, entryName, entrySku,
      entryAvailable, itemA]
    norm_num
  refine ⟨⟨by simp [cartA], hbA⟩, ?_, ?_⟩
  · have hfind : [codeEx].find? (fun c2 => c2.code == jsToUpper "ex") = some codeEx := by
      simp [List.find?, codeEx, codeFS]
      decide
    exact (((checkout_discount_validation_errors [codeEx] 0 cartA none "ex" 6 "N6"
      100 [itemA] (by simp [cartA]) hbA).2 codeEx hfind).2.2.1) rfl rfl 1 rfl
      (by decide) (by decide)
  · have hfind : [codeMin].find? (fun c2 => c2.code == jsToUpper "min") = some codeMin := by
      simp [List.find?, codeMin, codeFS]
      decide
    exact (((checkout_discount_validation_errors [codeMin] 0 cartA none "min" 7 "N7"
      100 [itemA] (by simp [cartA]) hbA).2 codeMin hfind).2.2.2) rfl rfl rfl 500 rfl
      (by norm_num)



/-! ### C9 : order creation and order number format -/

/-- Digits of the zero padded decimal rendering stay below ten. -/
theorem padDigits_lt_ten (w n : Nat) : ∀ k ∈ padDigits w n, k < 10 := by
  intro k hk
  rcases List.mem_append.mp hk with h | h
  · rw [List.eq_of_mem_replicate h]
    norm_num
  · exact Nat.digits_lt_base (by norm_num) (List.mem_reverse.mp h)

/-- The decimal rendering of n below 10 to the w has at most w digits. -/
theorem decDigits_length_le (w n : Nat) (h : n < 10 ^ w) :
    (decDigits n).length ≤ w := by
  unfold decDigits
  rw [List.length_reverse]
  by_cases h0 : n = 0
  · subst h0
    simp
  · by_contra hgt
    push_neg at hgt
    have h1 : 10 ^ (Nat.digits 10 n).length ≤ 10 * n :=
      Nat.base_pow_length_digits_le 10 n (by norm_num) h0
    have h2 : (10 : Nat) * n < 10 ^ (w + 1) := by
      have : (10 : Nat) ^ (w + 1) = 10 * 10 ^ w := by ring
      omega
    have h4 : (10 : Nat) ^ (Nat.digits 10 n).length < 10 ^ (w + 1) := by omega
    have h5 : (Nat.digits 10 n).length < w + 1 :=
      (Nat.pow_lt_pow_iff_right (by norm_num)).mp h4
    omega

/-- The padded rendering has exactly width w when n fits in w digits. -/
theorem padDigits_length (w n : Nat) (h : n < 10 ^ w) :
    (padDigits w n).length = w := by
  have hle := decDigits_length_le w n h
  unfold padDigits
  rw [List.length_append, List.length_replicate]
  omega

/-- Decimal digit characters are digits. -/
theorem digitChar_isDigit : ∀ k, k < 10 → (Nat.digitChar k).isDigit = true := by decide

/-- Upper cased base 36 digit characters are alphanumeric. -/
theorem base36Char_upper_isAlphanum :
    ∀ k, k < 36 → ((base36Char k).toUpper).isAlphanum = true := by decide

/-- C9: every order is created with both status fields PENDING; the generated
order number is the constant three letter prefix ZPS, a dash, the eight digit
date, a dash, and a four character alphanumeric suffix when the random
rendering supplies at least four base 36 digits; and inserting an order whose
number collides with an existing row fails with the uniqueness violation
instead of overwriting. -/
theorem order_creation_and_number_format (y m d : Nat) (randomDigits : List Nat)
    (hy : y < 10 ^ 4) (hm : m < 10 ^ 2) (hd : d < 10 ^ 2)
    (hlen : 4 ≤ randomDigits.length) (h36 : ∀ k ∈ randomDigits, k < 36) :
    (generateOrderNumber y m d randomDigits =
      "ZPS-" ++ isoDateStr y m d ++ "-" ++
        String.mk ((randomDigits.take 4).map (fun k => (base36Char k).toUpper))) ∧
    (isoDateStr y m d).length = 8 ∧
    (∀ ch ∈ (isoDateStr y m d).data, ch.isDigit = true) ∧
    (String.mk ((randomDigits.take 4).map (fun k => (base36Char k).toUpper))).length = 4 ∧
    (∀ ch ∈ (randomDigits.take 4).map (fun k => (base36Char k).toUpper),
      ch.isAlphanum = true) ∧
    (generateOrderNumber y m d randomDigits).length = 17 ∧
    (∀ codes now cart userId discountCode oid onum o,
      checkout codes now cart userId discountCode oid onum = Except.ok o →
        o.status = OrderStatus.PENDING ∧ o.paymentStatus = PaymentStatus.PENDING) ∧
    (∀ (db : List Order) (o o2 : Order), o2 ∈ db → o2.orderNumber = o.orderNumber →
      insertOrder db o = Except.error DbError.uniqueViolation) := by
  have hdate : (isoDateStr y m d).length = 8 := by
    show ((padDigits 4 y ++ padDigits 2 m ++ padDigits 2 d).map Nat.digitChar).length = 8
    rw [List.length_map, List.length_append, List.length_append,
      padDigits_length 4 y hy, padDigits_length 2 m hm, padDigits_length 2 d hd]
  have hsuffix :
      (String.mk ((randomDigits.take 4).map (fun k => (base36Char k).toUpper))).length = 4 := by
    show ((randomDigits.take 4).map (fun k => (base36Char k).toUpper)).length = 4
    rw [List.length_map, List.length_take]
    omega
  refine ⟨rfl, hdate, ?_, hsuffix, ?_, ?_, ?_, ?_⟩
  · intro ch hch
    obtain ⟨k, hk, rfl⟩ := List.mem_map.mp hch
    rcases List.mem_append.mp hk with h | h
    · rcases List.mem_append.mp h with h2 | h2
      · exact digitChar_isDigit k (padDigits_lt_ten 4 y k h2)
      · exact digitChar_isDigit k (padDigits_lt_ten 2 m k h2)
    · exact digitChar_isDigit k (padDigits_lt_ten 2 d k h)
  · intro ch hch
    obtain ⟨k, hk, rfl⟩ := List.mem_map.mp hch
    exact base36Char_upper_isAlphanum k (h36 k (List.mem_of_mem_take hk))
  · show ("ZPS-" ++ isoDateStr y m d ++ "-" ++
      String.mk ((randomDigits.take 4).map (fun k => (base36Char k).toUpper))).length = 17
    rw [String.length_append, String.length_append, String.length_append, hdate, hsuffix]
    rfl
  · intro codes now cart userId discountCode oid onum o h
    obtain ⟨subtotal, items, da, dcid, hb, hdisc, rfl⟩ :=
      checkout_ok_elim codes now cart userId discountCode oid onum o h
    exact ⟨rfl, rfl⟩
  · intro db o o2 hmem heq
    unfold insertOrder
    rw [if_pos]
    rw [List.any_eq_true]
    exact ⟨o2, hmem, by simp [heq]⟩

/-- C9 witness: the date 2024 01 15 with random digits a 3 b 7 yields
ZPS-20240115-A3B7, of the documented shape, and inserting a colliding order
number fails with the uniqueness violation. -/
theorem order_creation_and_number_format_witness :
    ((2024 : Nat) < 10 ^ 4 ∧ (1 : Nat) < 10 ^ 2 ∧ (15 : Nat) < 10 ^ 2 ∧
      4 ≤ [10, 3, 11, 7].length ∧ ∀ k ∈ [10, 3, 11, 7], k < 36) ∧
    generateOrderNumber 2024 1 15 [10, 3, 11, 7] = "ZPS-20240115-A3B7" ∧
    (generateOrderNumber 2024 1 15 [10, 3, 11, 7]).length = 17 ∧
    insertOrder [orderA] { orderA with id := 9 } =
      Except.error DbError.uniqueViolation := by
  have h1 : padDigits 4 2024 = [2, 0, 2, 4] := by norm_num [padDigits, decDigits]
  have h2 : padDigits 2 1 = [0, 1] := by norm_num [padDigits, decDigits]
  have h3 : padDigits 2 15 = [1, 5] := by norm_num [padDigits, decDigits]
  refine ⟨⟨by norm_num, by norm_num, by norm_num, by norm_num, by decide⟩, ?_, ?_, ?_⟩
  · show "ZPS-" ++ isoDateStr 2024 1 15 ++ "-" ++
      String.mk ((([10, 3, 11, 7] : List Nat).take 4).map (fun k => (base36Char k).toUpper)) =
      "ZPS-20240115-A3B7"
    simp only [isoDateStr, h1, h2, h3]
    decide
  · exact (order_creation_and_number_format 2024 1 15 [10, 3, 11, 7]
      (by norm_num) (by norm_num) (by norm_num) (by norm_num) (by decide)).2.2.2.2.2.1
  · exact (order_creation_and_number_format 2024 1 15 [10, 3, 11, 7]
      (by norm_num) (by norm_num) (by norm_num) (by norm_num) (by decide)).2.2.2.2.2.2.2
      [orderA] { orderA with id := 9 } orderA (by simp) rfl



/-! ### C1 : webhook redelivery -/

/-- The pending order awaiting the completed session webhook: two units of
product 1, discount code 7 referenced. -/
def orderW : Order :=
  { id := 1
    orderNumber := "NW"
    userId := none
    status := OrderStatus.PENDING
    paymentStatus := PaymentStatus.PENDING
    subtotal := 100
    shippingCost := 25
    discountAmount := 0
    total := 125
    discountCodeId := some 7
    stripePaymentId := some "sess_1"
    items := [itemA] }

/-- The store before the webhook: product 1 has stock 10, code 7 has usage
counter 0. -/
def stW : StoreState :=
  { orders := [orderW]
    products := [prodA]
    variants := []
    discountCodes := [codeFS]
    cartItems := [] }

/-- C1: the handler updates status, stock and usage with no guard on the
current payment status. Delivering the completed session event for order 1
once leaves product stock 8 and usage counter 1; delivering the identical
event a second time decrements and increments again, leaving stock 6 and
usage 2, where the claim requires the second delivery to change nothing. -/
theorem webhook_redelivery_double_decrements :
    productQty (webhookStripe stW (some (StripeEvent.checkoutSessionCompleted (some 1)))).2 1 =
      some 8 ∧
    discountUsed (webhookStripe stW (some (StripeEvent.checkoutSessionCompleted (some 1)))).2 7 =
      some 1 ∧
    (((webhookStripe stW (some (StripeEvent.checkoutSessionCompleted (some 1)))).2.orders.find?
        (fun o => o.id == 1)).map (fun o => (o.status, o.paymentStatus))) =
      some (OrderStatus.CONFIRMED, PaymentStatus.PAID) ∧
    productQty
      (webhookStripe (webhookStripe stW (some (StripeEvent.checkoutSessionCompleted (some 1)))).2
        (some (StripeEvent.checkoutSessionCompleted (some 1)))).2 1 = some 6 ∧
    discountUsed
      (webhookStripe (webhookStripe stW (some (StripeEvent.checkoutSessionCompleted (some 1)))).2
        (some (StripeEvent.checkoutSessionCompleted (some 1)))).2 7 = some 2 := by
  decide

/-! ### C2 : cancellation inventory restore -/

/-- A PENDING, unpaid order of user 3 over two units of product 1. -/
def orderP : Order :=
  { orderW with
      id := 2
      userId := some 3
      discountCodeId := none
      stripePaymentId := none }

/-- The store holding the unpaid order: product 1 has stock 10 and no stock
was ever decremented for order 2. -/
def stP : StoreState :=
  { orders := [orderP]
    products := [prodA]
    variants := []
    discountCodes := []
    cartItems := [] }

/-- A CONFIRMED, PAID order of user 3 over two units of product 1. -/
def orderC : Order :=
  { orderW with
      id := 4
      userId := some 3
      status := OrderStatus.CONFIRMED
      paymentStatus := PaymentStatus.PAID
      discountCodeId := none }

/-- The store holding the paid order. -/
def stC : StoreState :=
  { stP with orders := [orderC] }

/-- C2: the cancel route restores inventory unconditionally. Cancelling the
PENDING unpaid order 2 sets status CANCELLED and issues no refund call, but
increments product 1 stock from 10 to 12, where the claim requires the stock
unchanged at 10 since nothing had been decremented. Cancelling the CONFIRMED
PAID order 4 issues exactly one refund call, marks the payment REFUNDED and
increments the stock by the ordered quantity, as the claim states for that
branch. -/
theorem cancel_restores_inventory_unconditionally :
    (cancelOrder stP (fun _ => none) 2 3).1 = CancelOutcome.cancelled ∧
    (cancelOrder stP (fun _ => none) 2 3).2.1 = 0 ∧
    productQty (cancelOrder stP (fun _ => none) 2 3).2.2 1 = some 12 ∧
    (((cancelOrder stP (fun _ => none) 2 3).2.2.orders.find? (fun o => o.id == 2)).map
      (fun o => (o.status, o.paymentStatus))) =
      some (OrderStatus.CANCELLED, PaymentStatus.PENDING) ∧
    (cancelOrder stC (fun _ => some "pi_1") 4 3).1 = CancelOutcome.cancelled ∧
    (cancelOrder stC (fun _ => some "pi_1") 4 3).2.1 = 1 ∧
    productQty (cancelOrder stC (fun _ => some "pi_1") 4 3).2.2 1 = some 12 ∧
    (((cancelOrder stC (fun _ => some "pi_1") 4 3).2.2.orders.find? (fun o => o.id == 4)).map
      (fun o => (o.status, o.paymentStatus))) =
      some (OrderStatus.CANCELLED, PaymentStatus.REFUNDED) := by
  decide



/-! ### C10 : cart merge -/

/-- The id column of a cart table. -/
def cartIds (l : List CartItem) : List Nat :=
  l.map (fun it => it.id)

/-- In a table with pairwise distinct ids, rows with equal ids coincide. -/
theorem cartItem_eq_of_id_eq {l : List CartItem} (hN : (cartIds l).Nodup)
    {a b : CartItem} (ha : a ∈ l) (hb : b ∈ l) (hid : a.id = b.id) : a = b := by
  induction l with
  | nil => cases ha
  | cons c t ih =>
    rw [cartIds, List.map_cons, List.nodup_cons] at hN
    rcases List.mem_cons.mp ha with rfl | ha2
    · rcases List.mem_cons.mp hb with rfl | hb2
      · rfl
      · have : a.id ∈ List.map (fun it => it.id) t := by
          rw [hid]
          exact List.mem_map_of_mem (fun it => it.id) hb2
        exact absurd this hN.1
    · rcases List.mem_cons.mp hb with rfl | hb2
      · have : b.id ∈ List.map (fun it => it.id) t := by
          rw [← hid]
          exact List.mem_map_of_mem (fun it => it.id) ha2
        exact absurd this hN.1
      · exact ih hN.2 ha2 hb2

/-- Updating an id that is not in the table changes nothing. -/
theorem updateCartById_not_mem {l : List CartItem} {i : Nat}
    (h : ∀ it ∈ l, it.id ≠ i) (f : CartItem → CartItem) :
    updateCartById l i f = l := by
  unfold updateCartById
  have hcong : ∀ it ∈ l, (if it.id = i then f it else it) = it := by
    intro it hit
    rw [if_neg (h it hit)]
  rw [List.map_congr_left hcong]
  exact List.map_id l

/-- Removing an id that is not in the table changes nothing. -/
theorem removeCartById_not_mem {l : List CartItem} {i : Nat}
    (h : ∀ it ∈ l, it.id ≠ i) : removeCartById l i = l := by
  unfold removeCartById
  refine List.filter_eq_self.mpr ?_
  intro it hit
  simpa using h it hit

/-- Contribution accounting of an update keyed on a unique id. -/
theorem sum_map_updateCartById (c : CartItem → Nat) (f : CartItem → CartItem)
    {l : List CartItem} (hN : (cartIds l).Nodup) {ex : CartItem} (hex : ex ∈ l) :
    ((updateCartById l ex.id f).map c).sum + c ex = (l.map c).sum + c (f ex) := by
  induction l with
  | nil => cases hex
  | cons a t ih =>
    rw [cartIds, List.map_cons, List.nodup_cons] at hN
    rcases List.mem_cons.mp hex with rfl | hext
    · have ht : updateCartById t ex.id f = t := by
        refine updateCartById_not_mem ?_ f
        intro it hit hid
        exact hN.1 (hid ▸ List.mem_map_of_mem (fun it => it.id) hit)
      show ((List.map _ (ex :: t)).map c).sum + c ex = _
      rw [List.map_cons, if_pos rfl]
      have : List.map (fun x => if x.id = ex.id then f x else x) t = t := ht
      rw [this, List.map_cons, List.map_cons, List.sum_cons, List.sum_cons]
      omega
    · have hne : a.id ≠ ex.id := by
        intro hid
        exact hN.1 (hid ▸ List.mem_map_of_mem (fun it => it.id) hext)
      show ((List.map _ (a :: t)).map c).sum + c ex = _
      rw [List.map_cons, if_neg hne, List.map_cons, List.sum_cons, List.map_cons,
        List.sum_cons]
      have := ih hN.2 hext
      unfold updateCartById at this
      omega

/-- Contribution accounting of a deletion keyed on a unique id. -/
theorem sum_map_removeCartById (c : CartItem → Nat)
    {l : List CartItem} (hN : (cartIds l).Nodup) {g : CartItem} (hg : g ∈ l) :
    ((removeCartById l g.id).map c).sum + c g = (l.map c).sum := by
  induction l with
  | nil => cases hg
  | cons a t ih =>
    rw [cartIds, List.map_cons, List.nodup_cons] at hN
    rcases List.mem_cons.mp hg with rfl | hgt
    · have ht : removeCartById t g.id = t := by
        refine removeCartById_not_mem ?_
        intro it hit hid
        exact hN.1 (hid ▸ List.mem_map_of_mem (fun it => it.id) hit)
      show ((List.filter _ (g :: t)).map c).sum + c g = _
      rw [List.filter_cons]
      simp only [decide_not, Bool.not_eq_true']
      rw [if_neg (by simp)]
      have : List.filter (fun it => !decide (it.id = g.id)) t =
          removeCartById t g.id := by
        unfold removeCartById
        simp
      rw [this, ht]
      rw [List.map_cons, List.sum_cons]
      omega
    · have hne : a.id ≠ g.id := by
        intro hid
        exact hN.1 (hid ▸ List.mem_map_of_mem (fun it => it.id) hgt)
      show ((List.filter _ (a :: t)).map c).sum + c g = _
      rw [List.filter_cons]
      simp only [decide_not, Bool.not_eq_true']
      rw [if_pos (by simpa using hne)]
      rw [List.map_cons, List.sum_cons, List.map_cons, List.sum_cons]
      have := ih hN.2 hgt
      unfold removeCartById at this
      simp only [decide_not] at this
      omega

/-- Rows with a different id survive an update unchanged. -/
theorem mem_updateCartById_of_ne {l : List CartItem} {it : CartItem} (h : it ∈ l)
    {i : Nat} (hne : it.id ≠ i) (f : CartItem → CartItem) :
    it ∈ updateCartById l i f := by
  unfold updateCartById
  refine List.mem_map.mpr ⟨it, h, ?_⟩
  rw [if_neg hne]

/-- Rows with a different id survive a deletion. -/
theorem mem_removeCartById_of_ne {l : List CartItem} {it : CartItem} (h : it ∈ l)
    {i : Nat} (hne : it.id ≠ i) : it ∈ removeCartById l i := by
  unfold removeCartById
  exact List.mem_filter.mpr ⟨h, by simpa using hne⟩

/-- An id preserving update preserves the id column. -/
theorem cartIds_updateCartById (l : List CartItem) (i : Nat) (f : CartItem → CartItem)
    (hf : ∀ it, (f it).id = it.id) :
    cartIds (updateCartById l i f) = cartIds l := by
  unfold cartIds updateCartById
  rw [List.map_map]
  refine List.map_congr_left ?_
  intro a _
  by_cases h : a.id = i <;> simp [h, hf]

/-- Deletion keeps the id column duplicate free. -/
theorem nodup_cartIds_removeCartById {l : List CartItem} {i : Nat}
    (hN : (cartIds l).Nodup) : (cartIds (removeCartById l i)).Nodup := by
  unfold cartIds removeCartById at *
  exact hN.sublist (List.Sublist.map _ (List.filter_sublist l))

/-- Every row of an update comes from a row of the table. -/
theorem mem_updateCartById_elim {l : List CartItem} {i : Nat} {f : CartItem → CartItem}
    {it : CartItem} (h : it ∈ updateCartById l i f) :
    ∃ it0, it0 ∈ l ∧ it = if it0.id = i then f it0 else it0 := by
  unfold updateCartById at h
  obtain ⟨it0, h0, heq⟩ := List.mem_map.mp h
  exact ⟨it0, h0, heq.symm⟩



/-- One merge iteration moves the guest row quantity onto the user for its
pair, keeps ids duplicate free, keeps untouched guest rows, only keeps rows
for the session that were already there with another id than the processed
row, and preserves the identity exclusivity. -/
theorem mergeStep_spec (uid : Nat) (sid : String) (st : List CartItem) (g : CartItem)
    (hN : (cartIds st).Nodup)
    (hg : g ∈ st)
    (hgu : g.userId = none)
    (hgs : g.sessionId = some sid)
    (hexcl : ∀ it ∈ st, it.userId = some uid → it.sessionId ≠ some sid) :
    (∀ p v, userQty (mergeStep uid st g) uid p v =
      userQty st uid p v +
        (if g.productId = p ∧ g.variantId = v then g.quantity else 0)) ∧
    (cartIds (mergeStep uid st g)).Nodup ∧
    (∀ it ∈ st, it.id ≠ g.id → it.userId = none → it ∈ mergeStep uid st g) ∧
    (∀ it2 ∈ mergeStep uid st g, it2.sessionId = some sid →
      ∃ it0, it0 ∈ st ∧ it0.id ≠ g.id ∧ it2 = it0) ∧
    (∀ it2 ∈ mergeStep uid st g, it2.userId = some uid →
      it2.sessionId ≠ some sid) := by
  cases hfind : st.find? (fun it =>
      decide (it.userId = some uid ∧ it.productId = g.productId ∧
        it.variantId = g.variantId)) with
  | none =>
    have hstep : mergeStep uid st g = updateCartById st g.id
        (fun it => { it with userId := some uid, sessionId := none }) := by
      unfold mergeStep
      rw [hfind]
    refine ⟨?_, ?_, ?_, ?_, ?_⟩
    · intro p v
      have hsum := sum_map_updateCartById
        (fun it => if it.userId = some uid ∧ it.productId = p ∧ it.variantId = v
          then it.quantity else 0)
        (fun it => { it with userId := some uid, sessionId := none }) hN hg
      have hcg : (if g.userId = some uid ∧ g.productId = p ∧ g.variantId = v
          then g.quantity else 0) = 0 := by
        simp [hgu]
      rw [hstep]
      unfold userQty
      by_cases hpv : g.productId = p ∧ g.variantId = v <;>
        simp [hgu, hpv] at hsum ⊢ <;> omega
    · rw [hstep]
      rw [cartIds_updateCartById st g.id
        (fun it => { it with userId := some uid, sessionId := none }) (fun it => rfl)]
      exact hN
    · intro it hmem hid _
      rw [hstep]
      exact mem_updateCartById_of_ne hmem hid _
    · intro it2 h2 hs2
      rw [hstep] at h2
      obtain ⟨it0, h0, heq⟩ := mem_updateCartById_elim h2
      by_cases h : it0.id = g.id
      · rw [if_pos h] at heq
        rw [heq] at hs2
        simp at hs2
      · rw [if_neg h] at heq
        exact ⟨it0, h0, h, heq⟩
    · intro it2 h2 hu2
      rw [hstep] at h2
      obtain ⟨it0, h0, heq⟩ := mem_updateCartById_elim h2
      by_cases h : it0.id = g.id
      · rw [if_pos h] at heq
        rw [heq]
        simp
      · rw [if_neg h] at heq
        rw [heq] at hu2 ⊢
        exact hexcl it0 h0 hu2
  | some ex =>
    have hpred := List.find?_some hfind
    simp only [decide_eq_true_eq] at hpred
    obtain ⟨hexu, hexp, hexv⟩ := hpred
    have hexmem : ex ∈ st := List.mem_of_find?_eq_some hfind
    have hexg : ex.id ≠ g.id := by
      intro h
      have heq2 : ex = g := cartItem_eq_of_id_eq hN hexmem hg h
      rw [heq2, hgu] at hexu
      cases hexu
    have hstep : mergeStep uid st g = removeCartById
        (updateCartById st ex.id
          (fun it => { it with quantity := it.quantity + g.quantity })) g.id := by
      unfold mergeStep
      rw [hfind]
    have hids : cartIds (updateCartById st ex.id
        (fun it => { it with quantity := it.quantity + g.quantity })) = cartIds st :=
      cartIds_updateCartById st ex.id _ (fun it => rfl)
    have hNupd : (cartIds (updateCartById st ex.id
        (fun it => { it with quantity := it.quantity + g.quantity }))).Nodup := by
      rw [hids]
      exact hN
    have hgupd : g ∈ updateCartById st ex.id
        (fun it => { it with quantity := it.quantity + g.quantity }) :=
      mem_updateCartById_of_ne hg (fun h => hexg h.symm) _
    refine ⟨?_, ?_, ?_, ?_, ?_⟩
    · intro p v
      have hrm := sum_map_removeCartById
        (fun it => if it.userId = some uid ∧ it.productId = p ∧ it.variantId = v
          then it.quantity else 0) hNupd hgupd
      have hup := sum_map_updateCartById
        (fun it => if it.userId = some uid ∧ it.productId = p ∧ it.variantId = v
          then it.quantity else 0)
        (fun it => { it with quantity := it.quantity + g.quantity }) hN hexmem
      have hcg : (if g.userId = some uid ∧ g.productId = p ∧ g.variantId = v
          then g.quantity else 0) = 0 := by
        simp [hgu]
      have hcf : (if ex.userId = some uid ∧ ex.productId = p ∧ ex.variantId = v
          then ex.quantity + g.quantity else 0) =
          (if ex.userId = some uid ∧ ex.productId = p ∧ ex.variantId = v
            then ex.quantity else 0) +
          (if g.productId = p ∧ g.variantId = v then g.quantity else 0) := by
        by_cases hpv : g.productId = p ∧ g.variantId = v
        · simp [hexu, hexp, hexv, hpv]
        · rw [if_neg ?hc, if_neg ?hc2, if_neg hpv]
          case hc =>
            intro hcond
            exact hpv ⟨hexp ▸ hcond.2.1, hexv ▸ hcond.2.2⟩
          case hc2 =>
            intro hcond
            exact hpv ⟨hexp ▸ hcond.2.1, hexv ▸ hcond.2.2⟩
      rw [hstep]
      unfold userQty
      simp only [] at hrm hup
      omega
    · rw [hstep]
      exact nodup_cartIds_removeCartById hNupd
    · intro it hmem hid hu
      have hne : it.id ≠ ex.id := by
        intro h
        have heq2 : it = ex := cartItem_eq_of_id_eq hN hmem hexmem h
        rw [heq2, hexu] at hu
        cases hu
      rw [hstep]
      exact mem_removeCartById_of_ne (mem_updateCartById_of_ne hmem hne _) hid
    · intro it2 h2 hs2
      rw [hstep] at h2
      obtain ⟨h2u, hfil⟩ := List.mem_filter.mp h2
      have hid2 : it2.id ≠ g.id := by simpa using hfil
      obtain ⟨it0, h0, heq⟩ := mem_updateCartById_elim h2u
      by_cases h : it0.id = ex.id
      · have heq0 : it0 = ex := cartItem_eq_of_id_eq hN h0 hexmem h
        rw [if_pos h, heq0] at heq
        have : it2.sessionId = ex.sessionId := by rw [heq]
        rw [this] at hs2
        exact absurd hs2 (hexcl ex hexmem hexu)
      · rw [if_neg h] at heq
        refine ⟨it0, h0, ?_, heq⟩
        rw [← heq]
        exact hid2
    · intro it2 h2 hu2
      rw [hstep] at h2
      obtain ⟨h2u, _⟩ := List.mem_filter.mp h2
      obtain ⟨it0, h0, heq⟩ := mem_updateCartById_elim h2u
      by_cases h : it0.id = ex.id
      · have heq0 : it0 = ex := cartItem_eq_of_id_eq hN h0 hexmem h
        rw [if_pos h, heq0] at heq
        have : it2.sessionId = ex.sessionId := by rw [heq]
        rw [this]
        exact hexcl ex hexmem hexu
      · rw [if_neg h] at heq
        rw [heq] at hu2 ⊢
        exact hexcl it0 h0 hu2



/-- The merge loop accumulates every processed guest quantity onto the user
per pair and leaves no row under the guest session. -/
theorem mergeLoop_spec (uid : Nat) (sid : String) (gs : List CartItem) :
    ∀ st : List CartItem,
    (cartIds st).Nodup →
    (cartIds gs).Nodup →
    (∀ g ∈ gs, g ∈ st) →
    (∀ g ∈ gs, g.sessionId = some sid ∧ g.userId = none) →
    (∀ it ∈ st, it.sessionId = some sid → it ∈ gs) →
    (∀ it ∈ st, it.userId = some uid → it.sessionId ≠ some sid) →
    (∀ p v, userQty (gs.foldl (mergeStep uid) st) uid p v =
      userQty st uid p v +
        (gs.map (fun g => if g.productId = p ∧ g.variantId = v then g.quantity
          else 0)).sum) ∧
    (∀ it ∈ gs.foldl (mergeStep uid) st, it.sessionId ≠ some sid) := by
  induction gs with
  | nil =>
    intro st h1 h2 h3 h4 h5 h6
    constructor
    · intro p v
      simp
    · intro it hit hses
      exact absurd (h5 it hit hses) (List.not_mem_nil it)
  | cons g gs' ih =>
    intro st h1 h2 h3 h4 h5 h6
    obtain ⟨hgs, hgu⟩ := h4 g (List.mem_cons_self g gs')
    have hgmem : g ∈ st := h3 g (List.mem_cons_self g gs')
    obtain ⟨hacc, hnodup, hmem, hchar, hexcl2⟩ :=
      mergeStep_spec uid sid st g h1 hgmem hgu hgs h6
    have h2' : (cartIds gs').Nodup := by
      rw [cartIds, List.map_cons, List.nodup_cons] at h2
      exact h2.2
    have hgid : g.id ∉ List.map (fun it => it.id) gs' := by
      rw [cartIds, List.map_cons, List.nodup_cons] at h2
      exact h2.1
    have h3' : ∀ g2 ∈ gs', g2 ∈ mergeStep uid st g := by
      intro g2 hg2
      have hne : g2.id ≠ g.id := by
        intro h
        exact hgid (h ▸ List.mem_map_of_mem (fun it => it.id) hg2)
      exact hmem g2 (h3 g2 (List.mem_cons_of_mem g hg2)) hne
        (h4 g2 (List.mem_cons_of_mem g hg2)).2
    have h4' : ∀ g2 ∈ gs', g2.sessionId = some sid ∧ g2.userId = none :=
      fun g2 hg2 => h4 g2 (List.mem_cons_of_mem g hg2)
    have h5' : ∀ it ∈ mergeStep uid st g, it.sessionId = some sid → it ∈ gs' := by
      intro it hit hses
      obtain ⟨it0, h0, hne, heq⟩ := hchar it hit hses
      rw [heq]
      have hin := h5 it0 h0 (heq ▸ hses)
      rcases List.mem_cons.mp hin with rfl | h
      · exact absurd rfl hne
      · exact h
    have main := ih (mergeStep uid st g) hnodup h2' h3' h4' h5' hexcl2
    constructor
    · intro p v
      rw [List.foldl_cons, main.1 p v, hacc p v, List.map_cons, List.sum_cons]
      omega
    · intro it hit
      rw [List.foldl_cons] at hit
      exact main.2 it hit

/-- Summing over a filtered table equals summing guarded contributions. -/
theorem sum_map_filter_decide (q : CartItem → Prop) [DecidablePred q]
    (c : CartItem → Nat) (l : List CartItem) :
    ((l.filter (fun it => decide (q it))).map c).sum =
      (l.map (fun it => if q it then c it else 0)).sum := by
  induction l with
  | nil => rfl
  | cons a t ih =>
    by_cases h : q a <;> simp [List.filter_cons, h, ih]

/-- C10: with pairwise distinct row ids and the user or session identity
exclusive on every row, merging a guest cart into a user cart preserves the
total quantity per product and variant pair, the quantity of the user after
the merge being the sum of the user and guest quantities before it, and
leaves no cart row under the guest session id. -/
theorem mergeCart_preserves_quantities (items : List CartItem) (uid : Nat)
    (sid : String)
    (hN : (cartIds items).Nodup)
    (hx : ∀ it ∈ items, it.userId = none ∨ it.sessionId = none) :
    (∀ p v, userQty (mergeCart items uid sid) uid p v =
      userQty items uid p v + guestQty items sid p v) ∧
    (∀ it ∈ mergeCart items uid sid, it.sessionId ≠ some sid) := by
  have hgsN : (cartIds (items.filter
      (fun it => decide (it.sessionId = some sid)))).Nodup := by
    unfold cartIds
    exact hN.sublist (List.Sublist.map _ (List.filter_sublist items))
  have h3 : ∀ g ∈ items.filter (fun it => decide (it.sessionId = some sid)),
      g ∈ items :=
    fun g hg => (List.mem_filter.mp hg).1
  have h4 : ∀ g ∈ items.filter (fun it => decide (it.sessionId = some sid)),
      g.sessionId = some sid ∧ g.userId = none := by
    intro g hg
    have hses : g.sessionId = some sid := by
      have := (List.mem_filter.mp hg).2
      simpa using this
    refine ⟨hses, ?_⟩
    rcases hx g ((List.mem_filter.mp hg).1) with h | h
    · exact h
    · rw [h] at hses
      cases hses
  have h5 : ∀ it ∈ items, it.sessionId = some sid →
      it ∈ items.filter (fun it => decide (it.sessionId = some sid)) := by
    intro it hit hses
    exact List.mem_filter.mpr ⟨hit, by simpa using hses⟩
  have h6 : ∀ it ∈ items, it.userId = some uid → it.sessionId ≠ some sid := by
    intro it hit hu hses
    rcases hx it hit with h | h
    · rw [h] at hu
      cases hu
    · rw [h] at hses
      cases hses
  have main := mergeLoop_spec uid sid
    (items.filter (fun it => decide (it.sessionId = some sid)))
    items hN hgsN h3 h4 h5 h6
  constructor
  · intro p v
    have heq := main.1 p v
    have hguest : ((items.filter (fun it => decide (it.sessionId = some sid))).map
        (fun g => if g.productId = p ∧ g.variantId = v then g.quantity
          else 0)).sum = guestQty items sid p v := by
      rw [sum_map_filter_decide (fun it => it.sessionId = some sid)
        (fun g => if g.productId = p ∧ g.variantId = v then g.quantity else 0) items]
      unfold guestQty
      congr 1
      refine List.map_congr_left ?_
      intro a _
      by_cases h1 : a.sessionId = some sid <;>
        by_cases h2 : a.productId = p ∧ a.variantId = v <;>
          simp [h1, h2]
    unfold mergeCart
    rw [heq, hguest]
  · intro it hit
    exact main.2 it hit

/-- The cart table of the witness: user 1 already holds two units of product
10; guest session s holds three more units of product 10 and one unit of
variant 5 of product 11. -/
def cartTableM : List CartItem :=
  [{ id := 1, userId := some 1, sessionId := none, productId := 10,
     variantId := none, quantity := 2 },
   { id := 2, userId := none, sessionId := some "s", productId := 10,
     variantId := none, quantity := 3 },
   { id := 3, userId := none, sessionId := some "s", productId := 11,
     variantId := some 5, quantity := 1 }]

/-- C10 witness: on the concrete table the merged user quantity for product
10 is 2 plus 3, the one for the variant pair is 0 plus 1, and no row keeps
session s. -/
theorem mergeCart_preserves_quantities_witness :
    ((cartIds cartTableM).Nodup ∧
      ∀ it ∈ cartTableM, it.userId = none ∨ it.sessionId = none) ∧
    userQty (mergeCart cartTableM 1 "s") 1 10 none =
      userQty cartTableM 1 10 none + guestQty cartTableM "s" 10 none ∧
    userQty (mergeCart cartTableM 1 "s") 1 10 none = 5 ∧
    userQty (mergeCart cartTableM 1 "s") 1 11 (some 5) = 1 ∧
    (mergeCart cartTableM 1 "s").filter
      (fun it => decide (it.sessionId = some "s")) = [] := by
  refine ⟨⟨by decide, by decide⟩, ?_, by decide, by decide, by decide⟩
  exact (mergeCart_preserves_quantities cartTableM 1 "s" (by decide) (by decide)).1 10 none


end ZamaneStore
